import Mathlib

/-!
Shallow embedding of the MCP Streamable HTTP transport
(`awslabs/cloudwatch_applicationsignals_mcp_server/streamable_http_transport.py`)
and of the stateless POST endpoint of `remote_server_streamable.py`.

Modelling conventions:
- JSON values produced by `json.loads` / fed to `json.dumps` are the type `JVal`;
  HTTP response bodies are kept as the structured value handed to `json.dumps`.
- The per-session `asyncio.Queue` is a FIFO list whose head is the next item
  returned by `queue.get()`; the close sentinel `None` is `Option.none`.
- Fallible collaborators (the message handler, `mcp.list_tools`, `mcp.call_tool`)
  are functions into `Except String`, where `Except.error e` models a raised
  exception with `str(e) = e`.
- The session registry `self.sessions` (a Python dict keyed by session id) is an
  association list with first-occurrence lookup; insertion overwrites an existing
  binding in place and otherwise appends, matching dict insertion order.
- Fresh ids from `uuid.uuid4()` are explicit parameters (`freshId`).
-/

namespace StreamableHTTP

/-- JSON values as decoded by `json.loads` and encoded by `json.dumps`. -/
inductive JVal where
  | null
  | bool (b : Bool)
  | num (n : Int)
  | str (s : String)
  | arr (elems : List JVal)
  | obj (fields : List (String × JVal))


/-- One session's state, the dict stored in `self.sessions[session_id]`
(`streamable_http_transport.py` lines 90-95 and 181-187).  The dict built by
`handle_get` carries no `is_stateless` key and no code path ever reads that key
from a GET-created session, so it is modelled as `false` there. -/
structure Session where
  id : String
  queue : List (Option JVal)
  event_counter : Nat
  message_buffer : List (String × JVal)
  is_stateless : Bool


/-- The registry `self.sessions : dict[str, dict]`. -/
abbrev Sessions := List (String × Session)

/-- Membership test `session_id in self.sessions`. -/
def containsSession : Sessions → String → Bool
  | [], _ => false
  | (k, _) :: rest, sid => if k = sid then true else containsSession rest sid

/-- Lookup `self.sessions[session_id]` (first binding wins, as in a dict). -/
def lookupSession : Sessions → String → Option Session
  | [], _ => none
  | (k, v) :: rest, sid => if k = sid then some v else lookupSession rest sid

/-- Assignment `self.sessions[session_id] = s`: overwrite in place when the key
exists, otherwise append, preserving dict insertion order. -/
def setSession : Sessions → String → Session → Sessions
  | [], sid, s => [(sid, s)]
  | (k, v) :: rest, sid, s =>
      if k = sid then (k, s) :: rest else (k, v) :: setSession rest sid s

/-- Deletion `del self.sessions[session_id]` (removes the binding). -/
def eraseSession : Sessions → String → Sessions
  | [], _ => []
  | (k, v) :: rest, sid =>
      if k = sid then eraseSession rest sid else (k, v) :: eraseSession rest sid

/-- Effect of `self.sessions[sid]['queue'].put(item)`: append to that session's
queue; on a missing id this is a no-op (callers guard membership). -/
def enqueueMsg : Sessions → String → Option JVal → Sessions
  | [], _, _ => []
  | (k, v) :: rest, sid, item =>
      if k = sid then (k, { v with queue := v.queue ++ [item] }) :: rest
      else (k, v) :: enqueueMsg rest sid item

/-- One `yield` of the SSE generator in `handle_get` (lines 104-137):
`idLine i` is `id: i`, `eventLine n` is `event: n`, `dataLine v` is
`data: json.dumps(v)` followed by the blank terminator, and `keepalive` is the
comment frame `: keepalive` emitted on timeout. -/
inductive Frame where
  | idLine (i : String)
  | eventLine (name : String)
  | dataLine (v : JVal)
  | keepalive


/-- Lines 124-128 of `streamable_http_transport.py`: append the entry
`(event_id, message)` to `message_buffer`, then `pop(0)` if the length
exceeds 100. -/
def bufferPush (buffer : List (String × JVal)) (eid : String) (m : JVal) :
    List (String × JVal) :=
  let b := buffer ++ [(eid, m)]
  if 100 < b.length then b.tail else b

/-- One iteration of the `while True` loop of `event_generator`
(lines 112-137), driven by the current queue contents: an empty queue makes
`asyncio.wait_for` time out (yielding the keepalive comment and continuing),
the sentinel `None` breaks the loop, and a payload increments `event_counter`,
pushes onto `message_buffer` and yields the three-line message frame.
The returned `Bool` is whether the loop continues. -/
def sseLoopStep (s : Session) : Session × List Frame × Bool :=
  match s.queue with
  | [] => (s, [Frame.keepalive], true)
  | none :: rest => ({ s with queue := rest }, [], false)
  | some m :: rest =>
      let eid := toString (s.event_counter + 1)
      ({ s with queue := rest,
                event_counter := s.event_counter + 1,
                message_buffer := bufferPush s.message_buffer eid m },
       [Frame.idLine eid, Frame.eventLine "message", Frame.dataLine m], true)

/-- Draining run of the loop of lines 112-137 over the queued items, carrying
`event_counter` and `message_buffer` through iterations; stops at the sentinel
or when the queued items are exhausted (further iterations would only emit
keepalives, see `sseLoopStep`). -/
def sseLoop (counter : Nat) (buffer : List (String × JVal)) :
    List (Option JVal) → Nat × List (String × JVal) × List Frame
  | [] => (counter, buffer, [])
  | none :: _ => (counter, buffer, [])
  | some m :: rest =>
      let eid := toString (counter + 1)
      let r := sseLoop (counter + 1) (bufferPush buffer eid m) rest
      (r.1, r.2.1,
       Frame.idLine eid :: Frame.eventLine "message" :: Frame.dataLine m :: r.2.2)

/-- Full frame output of `event_generator` (lines 99-137): the endpoint and
session handshake events followed by the loop output. -/
def eventGeneratorFrames (endpoint session_id : String) (counter : Nat)
    (buffer : List (String × JVal)) (queue : List (Option JVal)) : List Frame :=
  [Frame.eventLine "endpoint",
   Frame.dataLine (JVal.obj [("endpoint", JVal.str endpoint)]),
   Frame.eventLine "session",
   Frame.dataLine (JVal.obj [("sessionId", JVal.str session_id)])]
  ++ (sseLoop counter buffer queue).2.2

/-- Observation function: the `(id, data)` pairs of the `event: message` frames
in a frame list, in order. -/
def messageEvents : List Frame → List (String × JVal)
  | Frame.idLine i :: Frame.eventLine e :: Frame.dataLine d :: rest =>
      if e = "message" then (i, d) :: messageEvents rest else messageEvents rest
  | _ :: rest => messageEvents rest
  | [] => []

/-- Specification helper: the `(event id, payload)` enumeration starting after
counter value `counter`, i.e. ids `counter+1, counter+2, ...` as strings. -/
def enumPayloads (counter : Nat) : List JVal → List (String × JVal)
  | [] => []
  | m :: rest => (toString (counter + 1), m) :: enumPayloads (counter + 1) rest

/-- Last `n` elements of a list. -/
def lastN (n : Nat) (l : List α) : List α := l.drop (l.length - n)

/-- An HTTP response as built by Starlette `Response`/`JSONResponse`: the status
code, the structured body handed to `json.dumps`, and explicitly supplied
headers (default status 200, default no extra headers). -/
structure HttpResponse where
  status : Nat
  body : JVal
  headers : List (String × String)


/-- The fresh session dict built by `handle_get` (lines 90-95). -/
def freshGetSession (sid : String) : Session :=
  { id := sid, queue := [], event_counter := 0, message_buffer := [],
    is_stateless := false }

/-- The fresh session dict built by `handle_post` (lines 181-187). -/
def freshPostSession (sid : String) (stateless : Bool) : Session :=
  { id := sid, queue := [], event_counter := 0, message_buffer := [],
    is_stateless := stateless }

/-- Registry effect and session-id resolution of `handle_get` (lines 66-97 and
the response headers of lines 144-153).  `headerSid` is the `Mcp-Session-Id`
header, `lastEventId` the `Last-Event-ID` header, `freshId` the value of
`str(uuid.uuid4())` used when the header is absent or empty (Python falsiness of
the empty string).  `lastEventId` is only logged (lines 84-86) and has no other
effect.  Returns the new registry, the resolved session id and the response
headers. -/
def handle_get (sessions : Sessions) (headerSid : Option String)
    (lastEventId : Option String) (freshId : String) :
    Sessions × String × List (String × String) :=
  let session_id :=
    match headerSid with
    | none => freshId
    | some s => if s = "" then freshId else s
  let sessions1 :=
    if containsSession sessions session_id then sessions
    else setSession sessions session_id (freshGetSession session_id)
  (sessions1, session_id,
   [("Cache-Control", "no-cache"), ("Connection", "keep-alive"),
    ("X-Accel-Buffering", "no"), ("Mcp-Session-Id", session_id)])

/-- Composition of `handle_get` with its SSE generator: the frames the returned
`StreamingResponse` would stream, given the stored session state at generator
start time. -/
def sseRunOfGet (endpoint : String) (sessions : Sessions)
    (headerSid : Option String) (lastEventId : Option String)
    (freshId : String) : List Frame :=
  let r := handle_get sessions headerSid lastEventId freshId
  match lookupSession r.1 r.2.1 with
  | some s => eventGeneratorFrames endpoint r.2.1 s.event_counter s.message_buffer s.queue
  | none => []

/-- The method `handle_post` of `StreamableHTTPTransport` (lines 155-243).
`headerSid` is the `Mcp-Session-Id` header; `freshId` the `str(uuid.uuid4())`
used in stateless mode (header absent or empty, lines 168-177); `body` the
result of `json.loads(body.decode())` with `Except.error` a
`json.JSONDecodeError`; `handler` the optional `self.message_handler`, whose
`Except.error e` models a raised exception with `str(e) = e`. -/
def handle_post (sessions : Sessions) (headerSid : Option String)
    (freshId : String) (body : Except String JVal)
    (handler : Option (JVal → Except String JVal)) : Sessions × HttpResponse :=
  let sidStateless :=
    match headerSid with
    | none => (freshId, true)
    | some s => if s = "" then (freshId, true) else (s, false)
  let session_id := sidStateless.1
  let is_stateless := sidStateless.2
  let sessions1 :=
    if containsSession sessions session_id then sessions
    else setSession sessions session_id (freshPostSession session_id is_stateless)
  match body with
  | Except.error _ =>
      (sessions1,
       { status := 400, body := JVal.obj [("error", JVal.str "Invalid JSON")],
         headers := [] })
  | Except.ok message =>
      match handler with
      | some h =>
          match h message with
          | Except.ok response =>
              let sessions2 :=
                if is_stateless then sessions1
                else enqueueMsg sessions1 session_id (some response)
              let sessions3 :=
                if is_stateless && containsSession sessions2 session_id then
                  eraseSession sessions2 session_id
                else sessions2
              (sessions3,
               { status := 200, body := response,
                 headers := [("Mcp-Session-Id", session_id)] })
          | Except.error e =>
              (sessions1,
               { status := 500, body := JVal.obj [("error", JVal.str e)],
                 headers := [] })
      | none =>
          let sessions2 :=
            if is_stateless && containsSession sessions1 session_id then
              eraseSession sessions1 session_id
            else sessions1
          (sessions2,
           { status := 500,
             body := JVal.obj [("error", JVal.str "No message handler configured")],
             headers := [] })

/-- Primitive mutation performed by `handle_delete` on shared state, in program
order: a `queue.put` or a registry deletion. -/
inductive Effect where
  | queuePut (sid : String) (item : Option JVal)
  | removeSession (sid : String)


/-- Interpretation of one `Effect` on the registry. -/
def applyEffect (sessions : Sessions) : Effect → Sessions
  | Effect.queuePut sid item => enqueueMsg sessions sid item
  | Effect.removeSession sid => eraseSession sessions sid

/-- The method `handle_delete` (lines 245-273).  Returns the new registry, the
response, and the trace of shared-state effects in the order the source
performs them (sentinel `put(None)` at line 264 strictly before the `del` at
line 267).  The guard mirrors `if not session_id or session_id not in
self.sessions` including Python falsiness of the empty string. -/
def handle_delete (sessions : Sessions) (headerSid : Option String) :
    Sessions × HttpResponse × List Effect :=
  let notFound : HttpResponse :=
    { status := 404, body := JVal.obj [("error", JVal.str "Session not found")],
      headers := [] }
  match headerSid with
  | none => (sessions, notFound, [])
  | some sid =>
      if sid = "" ∨ containsSession sessions sid = false then (sessions, notFound, [])
      else
        let effects := [Effect.queuePut sid none, Effect.removeSession sid]
        (effects.foldl applyEffect sessions,
         { status := 200,
           body := JVal.obj [("status", JVal.str "session terminated")],
           headers := [] },
         effects)

/-- The method `send_message` (lines 275-285): enqueue onto an existing
session's queue, or log a warning and do nothing when the id is unknown. -/
def send_message (sessions : Sessions) (sid : String) (m : JVal) : Sessions :=
  if containsSession sessions sid then enqueueMsg sessions sid (some m)
  else sessions

/-- Dict lookup `fields.get(key)` on a decoded JSON object. -/
def jLookup : List (String × JVal) → String → Option JVal
  | [], _ => none
  | (k, v) :: rest, key => if k = key then some v else jLookup rest key

/-- Lookup on a decoded JSON value: `get` on objects.  Python raises
`AttributeError` when `.get` is called on a non-dict; that path is outside
every stated claim and is modelled as a missing key. -/
def jGet : JVal → String → Option JVal
  | JVal.obj fs, key => jLookup fs key
  | _, _ => none

/-- Python equality `v == lit` between a decoded JSON value and a string
literal. -/
def isStrEq : JVal → String → Bool
  | JVal.str s, t => s == t
  | _, _ => false

mutual

/-- Python `repr` of a decoded JSON value, as used by `str` on containers.
String escaping inside `repr` is not modelled (no claim depends on it). -/
def pyRepr : JVal → String
  | JVal.null => "None"
  | JVal.bool true => "True"
  | JVal.bool false => "False"
  | JVal.num n => toString n
  | JVal.str s => "\x27" ++ s ++ "\x27"
  | JVal.arr xs => "[" ++ String.intercalate ", " (pyReprList xs) ++ "]"
  | JVal.obj fs => "\x7b" ++ String.intercalate ", " (pyReprFields fs) ++ "\x7d"

/-- Helper for `pyRepr` on arrays. -/
def pyReprList : List JVal → List String
  | [] => []
  | v :: vs => pyRepr v :: pyReprList vs

/-- Helper for `pyRepr` on objects. -/
def pyReprFields : List (String × JVal) → List String
  | [] => []
  | (k, v) :: fs => (pyRepr (JVal.str k) ++ ": " ++ pyRepr v) :: pyReprFields fs

end

/-- Python `str` of a decoded JSON value, as used by f-string interpolation. -/
def pyStr : JVal → String
  | JVal.str s => s
  | v => pyRepr v

/-- The 500 response of the generic `except Exception` branch of
`handle_mcp_post` (`remote_server_streamable.py` lines 241-250). -/
def internalErrorResponse (rid : JVal) (e : String) : HttpResponse :=
  { status := 500,
    body := JVal.obj [("jsonrpc", JVal.str "2.0"), ("id", rid),
      ("error", JVal.obj [("code", JVal.num (-32603)),
        ("message", JVal.str "Internal error"), ("data", JVal.str e)])],
    headers := [] }

/-- The function `handle_mcp_post` of `remote_server_streamable.py`
(lines 187-250).  `listTools` models `await mcp.list_tools()` already converted
by `model_dump`, `callTool` models `await mcp.call_tool(name, args)` likewise;
`Except.error e` on either models a raised exception with `str(e) = e`, caught
by the generic `except` of lines 241-250.  `body` is the decoded JSON object
(`Except.error` a `json.JSONDecodeError`); bodies decoding to non-objects raise
an uncaught error in the source and are outside the model. -/
def handle_mcp_post (listTools : Except String (List JVal))
    (callTool : JVal → JVal → Except String JVal)
    (body : Except String (List (String × JVal))) : HttpResponse :=
  match body with
  | Except.error e =>
      { status := 400,
        body := JVal.obj [("jsonrpc", JVal.str "2.0"), ("id", JVal.null),
          ("error", JVal.obj [("code", JVal.num (-32700)),
            ("message", JVal.str "Parse error"), ("data", JVal.str e)])],
        headers := [] }
  | Except.ok fields =>
      let method := (jLookup fields "method").getD JVal.null
      let params := (jLookup fields "params").getD (JVal.obj [])
      let request_id := (jLookup fields "id").getD JVal.null
      if isStrEq method "tools/list" then
        match listTools with
        | Except.ok tools =>
            { status := 200,
              body := JVal.obj [("jsonrpc", JVal.str "2.0"), ("id", request_id),
                ("result", JVal.obj [("tools", JVal.arr tools)])],
              headers := [] }
        | Except.error e => internalErrorResponse request_id e
      else if isStrEq method "tools/call" then
        let tool_name := (jGet params "name").getD JVal.null
        let tool_args := (jGet params "arguments").getD (JVal.obj [])
        match callTool tool_name tool_args with
        | Except.ok result =>
            { status := 200,
              body := JVal.obj [("jsonrpc", JVal.str "2.0"), ("id", request_id),
                ("result", result)],
              headers := [] }
        | Except.error e => internalErrorResponse request_id e
      else
        { status := 200,
          body := JVal.obj [("jsonrpc", JVal.str "2.0"), ("id", request_id),
            ("error", JVal.obj [("code", JVal.num (-32601)),
              ("message", JVal.str ("Method not found: " ++ pyStr method))])],
          headers := [] }

/-- Accessor used when checking for a JSON-RPC error code in a response body. -/
def errorCode (v : JVal) : Option JVal :=
  (jGet v "error").bind (fun e => jGet e "code")


/-! ## Registry lemmas -/

theorem contains_set_self (ss : Sessions) (sid : String) (s : Session) :
    containsSession (setSession ss sid s) sid = true := by
  induction ss with
  | nil => simp [setSession, containsSession]
  | cons p rest ih =>
      obtain ⟨k, v⟩ := p
      by_cases h : k = sid
      · simp [setSession, containsSession, h]
      · simp [setSession, containsSession, h, ih]

theorem set_eq_append (ss : Sessions) (sid : String) (s : Session)
    (h : containsSession ss sid = false) : setSession ss sid s = ss ++ [(sid, s)] := by
  induction ss with
  | nil => simp [setSession]
  | cons p rest ih =>
      obtain ⟨k, v⟩ := p
      by_cases hk : k = sid
      · simp [containsSession, hk] at h
      · simp [containsSession, hk] at h
        simp [setSession, hk, ih h]

theorem erase_append (l r : Sessions) (sid : String) :
    eraseSession (l ++ r) sid = eraseSession l sid ++ eraseSession r sid := by
  induction l with
  | nil => simp [eraseSession]
  | cons p rest ih =>
      obtain ⟨k, v⟩ := p
      by_cases hk : k = sid <;> simp [eraseSession, hk, ih]

theorem erase_not_contains (ss : Sessions) (sid : String)
    (h : containsSession ss sid = false) : eraseSession ss sid = ss := by
  induction ss with
  | nil => rfl
  | cons p rest ih =>
      obtain ⟨k, v⟩ := p
      by_cases hk : k = sid
      · simp [containsSession, hk] at h
      · simp [containsSession, hk] at h
        simp [eraseSession, hk, ih h]

theorem erase_set_of_not_contains (ss : Sessions) (sid : String) (s : Session)
    (h : containsSession ss sid = false) :
    eraseSession (setSession ss sid s) sid = ss := by
  rw [set_eq_append ss sid s h, erase_append, erase_not_contains ss sid h]
  simp [eraseSession]

theorem erase_enqueue (ss : Sessions) (sid : String) (item : Option JVal) :
    eraseSession (enqueueMsg ss sid item) sid = eraseSession ss sid := by
  induction ss with
  | nil => rfl
  | cons p rest ih =>
      obtain ⟨k, v⟩ := p
      by_cases hk : k = sid <;> simp [enqueueMsg, eraseSession, hk, ih]

theorem enqueue_set (ss : Sessions) (sid : String) (s : Session) (item : Option JVal) :
    enqueueMsg (setSession ss sid s) sid item =
      setSession ss sid { s with queue := s.queue ++ [item] } := by
  induction ss with
  | nil => simp [setSession, enqueueMsg]
  | cons p rest ih =>
      obtain ⟨k, v⟩ := p
      by_cases hk : k = sid <;> simp [setSession, enqueueMsg, hk, ih]

theorem contains_of_lookup (ss : Sessions) (sid : String) (s : Session)
    (h : lookupSession ss sid = some s) : containsSession ss sid = true := by
  induction ss with
  | nil => simp [lookupSession] at h
  | cons p rest ih =>
      obtain ⟨k, v⟩ := p
      by_cases hk : k = sid
      · simp [containsSession, hk]
      · simp [lookupSession, hk] at h
        simp [containsSession, hk, ih h]

theorem lookup_enqueue_self (ss : Sessions) (sid : String) (s : Session)
    (item : Option JVal) (h : lookupSession ss sid = some s) :
    lookupSession (enqueueMsg ss sid item) sid =
      some { s with queue := s.queue ++ [item] } := by
  induction ss with
  | nil => simp [lookupSession] at h
  | cons p rest ih =>
      obtain ⟨k, v⟩ := p
      by_cases hk : k = sid
      · simp [lookupSession, hk] at h
        simp [enqueueMsg, lookupSession, hk, h]
      · simp [lookupSession, hk] at h
        simp [enqueueMsg, lookupSession, hk, ih h]

theorem lookup_enqueue_other (ss : Sessions) (sid k : String) (item : Option JVal)
    (h : k ≠ sid) :
    lookupSession (enqueueMsg ss sid item) k = lookupSession ss k := by
  induction ss with
  | nil => rfl
  | cons p rest ih =>
      obtain ⟨k2, v⟩ := p
      by_cases hk : k2 = sid
      · subst hk
        simp [enqueueMsg, lookupSession, Ne.symm h]
      · by_cases hk2 : k2 = k <;> simp [enqueueMsg, lookupSession, hk, hk2, ih, h]

/-! ## Buffer and SSE loop lemmas -/

theorem lastN_length_le (n : Nat) (l : List α) : (lastN n l).length ≤ n := by
  simp only [lastN, List.length_drop]
  omega

theorem lastN_of_length_le {l : List α} {n : Nat} (h : l.length ≤ n) : lastN n l = l := by
  simp [lastN, Nat.sub_eq_zero_of_le h]

theorem lastN_cons {l : List α} {n : Nat} (x : α) (h : n ≤ l.length) :
    lastN n (x :: l) = lastN n l := by
  simp only [lastN, List.length_cons]
  have h2 : l.length + 1 - n = (l.length - n) + 1 := by omega
  rw [h2, List.drop_succ_cons]

theorem lastN_lastN_append (n : Nat) (l r : List α) :
    lastN n (lastN n l ++ r) = lastN n (l ++ r) := by
  induction l with
  | nil => simp [lastN]
  | cons x l ih =>
      by_cases h : (x :: l).length ≤ n
      · rw [lastN_of_length_le h]
      · have h1 : n ≤ l.length := by
          simp only [List.length_cons] at h; omega
        have h2 : n ≤ (l ++ r).length := by
          simp only [List.length_append]; omega
        rw [lastN_cons x h1, List.cons_append, lastN_cons x h2, ih]

theorem bufferPush_eq_lastN (buffer : List (String × JVal)) (eid : String) (m : JVal)
    (h : buffer.length ≤ 100) :
    bufferPush buffer eid m = lastN 100 (buffer ++ [(eid, m)]) := by
  have hlen : (buffer ++ [(eid, m)]).length = buffer.length + 1 := by simp
  simp only [bufferPush]
  split
  · next hl =>
      have h1 : (buffer ++ [(eid, m)]).length - 100 = 1 := by omega
      simp only [lastN, h1, List.drop_one]
  · next hl =>
      have h0 : (buffer ++ [(eid, m)]).length - 100 = 0 := by omega
      simp only [lastN, h0, List.drop_zero]

theorem bufferPush_length_le (buffer : List (String × JVal)) (eid : String) (m : JVal)
    (h : buffer.length ≤ 100) : (bufferPush buffer eid m).length ≤ 100 := by
  rw [bufferPush_eq_lastN buffer eid m h]
  exact lastN_length_le 100 _

theorem sseLoop_buffer (ms : List JVal) : ∀ (c : Nat) (b : List (String × JVal)),
    b.length ≤ 100 →
    (sseLoop c b (ms.map some)).2.1 = lastN 100 (b ++ enumPayloads c ms) := by
  induction ms with
  | nil =>
      intro c b h
      simp [sseLoop, enumPayloads, lastN_of_length_le h]
  | cons m rest ih =>
      intro c b h
      simp only [List.map_cons, sseLoop]
      rw [ih (c + 1) _ (bufferPush_length_le _ _ _ h)]
      rw [bufferPush_eq_lastN _ _ _ h, lastN_lastN_append]
      simp [enumPayloads, List.append_assoc]

theorem sseLoop_frames (ms : List JVal) : ∀ (c : Nat) (b : List (String × JVal)),
    messageEvents (sseLoop c b (ms.map some)).2.2 = enumPayloads c ms := by
  induction ms with
  | nil => intro c b; simp [sseLoop, messageEvents, enumPayloads]
  | cons m rest ih =>
      intro c b
      simp [sseLoop, messageEvents, enumPayloads, ih]

theorem enumPayloads_length (ms : List JVal) : ∀ c, (enumPayloads c ms).length = ms.length := by
  induction ms with
  | nil => intro c; rfl
  | cons m rest ih => intro c; simp [enumPayloads, ih]

theorem enumPayloads_map_fst (ms : List JVal) : ∀ c : Nat,
    (enumPayloads c ms).map Prod.fst =
      (List.range ms.length).map (fun i => toString (i + c + 1)) := by
  induction ms with
  | nil => intro c; simp [enumPayloads]
  | cons m rest ih =>
      intro c
      simp only [enumPayloads, List.length_cons, List.range_succ_eq_map,
        List.map_cons, List.map_map, ih (c + 1)]
      congr 1
      · congr 1
        omega
      · apply List.map_congr_left
        intro i _
        simp only [Function.comp_apply]
        congr 1
        omega

theorem messageEvents_eventLine (n : String) (fs : List Frame) :
    messageEvents (Frame.eventLine n :: fs) = messageEvents fs := rfl

theorem messageEvents_dataLine (v : JVal) (fs : List Frame) :
    messageEvents (Frame.dataLine v :: fs) = messageEvents fs := rfl

/-! ## Claim theorems: SSE stream -/

/-- C1: for every session (sessions are created with `event_counter = 0`) and
every sequence of N payload enqueues onto its queue, the SSE event generator of
`handle_get` emits exactly N message frames whose event ids are the strings
"1", ..., "N" (ids `i + 1` for position `i`), in enqueue order, each carrying
the corresponding payload. -/
theorem sse_ids_one_to_n_in_enqueue_order (endpoint sid : String) (ms : List JVal) :
    messageEvents (eventGeneratorFrames endpoint sid 0 [] (ms.map some)) =
      enumPayloads 0 ms ∧
    (enumPayloads 0 ms).map Prod.fst =
      (List.range ms.length).map (fun i => toString (i + 1)) ∧
    (messageEvents (eventGeneratorFrames endpoint sid 0 [] (ms.map some))).length =
      ms.length := by
  have h1 : messageEvents (eventGeneratorFrames endpoint sid 0 [] (ms.map some)) =
      enumPayloads 0 ms := by
    simp only [eventGeneratorFrames, List.cons_append, List.nil_append,
      messageEvents_eventLine, messageEvents_dataLine]
    exact sseLoop_frames ms 0 []
  refine ⟨h1, ?_, ?_⟩
  · have h2 := enumPayloads_map_fst ms 0
    simpa using h2
  · rw [h1, enumPayloads_length]

/-- C2: every buffer push keeps `message_buffer` at 100 entries or fewer
(evicting oldest first), and after 150 payloads delivered on one fresh session
the buffer holds exactly the enqueued entries from position 51 on, whose event
ids are the strings "51" through "150", in order. -/
theorem message_buffer_capped_at_100 :
    (∀ (b : List (String × JVal)) (eid : String) (m : JVal),
       b.length ≤ 100 → (bufferPush b eid m).length ≤ 100) ∧
    (∀ ms : List JVal, ms.length = 150 →
       (sseLoop 0 [] (ms.map some)).2.1 = (enumPayloads 0 ms).drop 50 ∧
       ((sseLoop 0 [] (ms.map some)).2.1).map Prod.fst =
         (List.range 100).map (fun i => toString (51 + i))) := by
  refine ⟨bufferPush_length_le, ?_⟩
  intro ms h150
  have hlen : (enumPayloads 0 ms).length = 150 := by
    rw [enumPayloads_length, h150]
  have hdrop : (sseLoop 0 [] (ms.map some)).2.1 = (enumPayloads 0 ms).drop 50 := by
    rw [sseLoop_buffer ms 0 [] (by simp)]
    simp [lastN, hlen]
  refine ⟨hdrop, ?_⟩
  rw [hdrop, List.map_drop, enumPayloads_map_fst ms 0, h150]
  rw [show (150 : Nat) = 50 + 100 from rfl, List.range_add, List.map_append]
  rw [List.drop_left' (by simp), List.map_map]
  apply List.map_congr_left
  intro i _
  simp only [Function.comp_apply]
  congr 1
  omega

/-- C8: an SSE loop iteration in which the 30-second wait times out (empty
queue) emits only the keepalive comment frame, continues the loop, and leaves
the session, including `event_counter`, `message_buffer` and `queue`,
unchanged. -/
theorem keepalive_on_timeout (s : Session) (h : s.queue = []) :
    sseLoopStep s = (s, [Frame.keepalive], true) := by
  simp [sseLoopStep, h]

/-- Closed instance of `keepalive_on_timeout` at a concrete session. -/
theorem keepalive_on_timeout_witness :
    (freshGetSession "a").queue = [] ∧
    sseLoopStep (freshGetSession "a") = (freshGetSession "a", [Frame.keepalive], true) :=
  ⟨rfl, keepalive_on_timeout (freshGetSession "a") rfl⟩

/-- C9: the `Last-Event-ID` header has no observable effect: two GET requests
differing only in that header produce the same registry state, resolved
session id, response headers, and SSE frame output. -/
theorem last_event_id_has_no_effect (sessions : Sessions)
    (headerSid : Option String) (freshId endpoint : String)
    (leid1 leid2 : Option String) :
    handle_get sessions headerSid leid1 freshId =
      handle_get sessions headerSid leid2 freshId ∧
    sseRunOfGet endpoint sessions headerSid leid1 freshId =
      sseRunOfGet endpoint sessions headerSid leid2 freshId :=
  ⟨rfl, rfl⟩

/-! ## Claim theorems: POST, DELETE, send_message -/

/-- C3 counterexample: a stateless POST (no `Mcp-Session-Id` header) whose body
fails JSON decoding leaves the temporary session in the registry instead of
deleting it before returning. -/
theorem stateless_post_not_always_deleted :
    containsSession
      (handle_post [] none "s" (Except.error "Expecting value")
        (some (fun m => Except.ok m))).1 "s" = true := rfl

/-- C3 amended: a POST without `Mcp-Session-Id` creates a fresh stateless
session and never enqueues the handler's response; the session is deleted
before returning on the handler-success and no-handler-configured paths, but
on the JSON-decode-failure and handler-exception paths it remains in the
registry (with an empty queue). -/
theorem stateless_post_lifecycle (sessions : Sessions) (freshId : String)
    (hfresh : containsSession sessions freshId = false) :
    (∀ (h : JVal → Except String JVal) (msg resp : JVal), h msg = Except.ok resp →
       handle_post sessions none freshId (Except.ok msg) (some h) =
         (sessions, { status := 200, body := resp,
                      headers := [("Mcp-Session-Id", freshId)] })) ∧
    (∀ msg : JVal,
       handle_post sessions none freshId (Except.ok msg) none =
         (sessions,
          { status := 500,
            body := JVal.obj [("error", JVal.str "No message handler configured")],
            headers := [] })) ∧
    (∀ (e : String) (handler : Option (JVal → Except String JVal)),
       handle_post sessions none freshId (Except.error e) handler =
         (setSession sessions freshId (freshPostSession freshId true),
          { status := 400, body := JVal.obj [("error", JVal.str "Invalid JSON")],
            headers := [] })) ∧
    (∀ (h : JVal → Except String JVal) (msg : JVal) (e : String),
       h msg = Except.error e →
       handle_post sessions none freshId (Except.ok msg) (some h) =
         (setSession sessions freshId (freshPostSession freshId true),
          { status := 500, body := JVal.obj [("error", JVal.str e)],
            headers := [] })) := by
  have herase := erase_set_of_not_contains sessions freshId (freshPostSession freshId true) hfresh
  refine ⟨?_, ?_, ?_, ?_⟩
  · intro h msg resp hok
    simp [handle_post, hfresh, hok, contains_set_self, herase]
  · intro msg
    simp [handle_post, hfresh, contains_set_self, herase]
  · intro e handler
    simp [handle_post, hfresh]
  · intro h msg e herr
    simp [handle_post, hfresh, herr]

/-- Closed instance of `stateless_post_lifecycle`. -/
theorem stateless_post_lifecycle_witness :
    containsSession [] "s" = false ∧
    handle_post [] none "s" (Except.ok JVal.null) (some (fun m => Except.ok m)) =
      ([], { status := 200, body := JVal.null, headers := [("Mcp-Session-Id", "s")] }) ∧
    handle_post [] none "s" (Except.error "bad") none =
      (setSession [] "s" (freshPostSession "s" true),
       { status := 400, body := JVal.obj [("error", JVal.str "Invalid JSON")],
         headers := [] }) :=
  ⟨rfl,
   (stateless_post_lifecycle [] "s" rfl).1 (fun m => Except.ok m) JVal.null JVal.null rfl,
   (stateless_post_lifecycle [] "s" rfl).2.2.1 "bad" none⟩

/-- C4 counterexample: the transport's `handle_post` answers a JSON decode
failure with HTTP 400 but a plain `Invalid JSON` body carrying neither a
JSON-RPC error code (so not -32700) nor any `id` member. -/
theorem post_parse_error_no_jsonrpc_code :
    (handle_post [] (some "sess") "f" (Except.error "bad")
       (some (fun m => Except.ok m))).2.status = 400 ∧
    errorCode (handle_post [] (some "sess") "f" (Except.error "bad")
       (some (fun m => Except.ok m))).2.body = none ∧
    jGet (handle_post [] (some "sess") "f" (Except.error "bad")
       (some (fun m => Except.ok m))).2.body "id" = none :=
  ⟨rfl, rfl, rfl⟩

/-- C4 amended: on a JSON decode failure the transport's `handle_post` returns
HTTP 400 with body `{"error": "Invalid JSON"}` (no JSON-RPC envelope), while
the remote server's `handle_mcp_post` returns HTTP 400 with a JSON-RPC body
carrying `id: null` and error code -32700. -/
theorem post_parse_error_responses :
    (∀ (sessions : Sessions) (headerSid : Option String) (freshId e : String)
       (handler : Option (JVal → Except String JVal)),
       (handle_post sessions headerSid freshId (Except.error e) handler).2 =
         { status := 400, body := JVal.obj [("error", JVal.str "Invalid JSON")],
           headers := [] }) ∧
    (∀ (listTools : Except String (List JVal))
       (callTool : JVal → JVal → Except String JVal) (e : String),
       handle_mcp_post listTools callTool (Except.error e) =
         { status := 400,
           body := JVal.obj [("jsonrpc", JVal.str "2.0"), ("id", JVal.null),
             ("error", JVal.obj [("code", JVal.num (-32700)),
               ("message", JVal.str "Parse error"), ("data", JVal.str e)])],
           headers := [] }) := by
  constructor
  · intro sessions headerSid freshId e handler
    cases headerSid with
    | none => rfl
    | some s => rfl
  · intro listTools callTool e
    rfl

/-- C5 counterexample: when the message handler raises on a non-stateless
POST, the transport returns HTTP 500 whose body carries no JSON-RPC error code
(in particular not -32603). -/
theorem post_handler_failure_no_jsonrpc_code :
    (handle_post [("sess", freshGetSession "sess")] (some "sess") "f"
       (Except.ok JVal.null) (some (fun _ => Except.error "boom"))).2.status = 500 ∧
    errorCode (handle_post [("sess", freshGetSession "sess")] (some "sess") "f"
       (Except.ok JVal.null) (some (fun _ => Except.error "boom"))).2.body = none :=
  ⟨rfl, rfl⟩

/-- C5 amended: on a handler exception during a non-stateless POST the
transport returns HTTP 500 with body `{"error": str(e)}` — the failure
description but no JSON-RPC -32603 envelope — and leaves the registry, hence
the session's queue, counter and buffer, entirely unchanged; the JSON-RPC
-32603 error (message text `Internal error`, description in the `data` field)
is produced by the remote server's `handle_mcp_post` when a collaborator
raises. -/
theorem post_handler_failure_responses :
    (∀ (sessions : Sessions) (sid : String) (s : Session) (freshId : String)
       (h : JVal → Except String JVal) (msg : JVal) (e : String),
       sid ≠ "" → lookupSession sessions sid = some s → h msg = Except.error e →
       handle_post sessions (some sid) freshId (Except.ok msg) (some h) =
         (sessions, { status := 500, body := JVal.obj [("error", JVal.str e)],
                      headers := [] })) ∧
    (∀ (callTool : JVal → JVal → Except String JVal) (e : String)
       (fields : List (String × JVal)),
       jLookup fields "method" = some (JVal.str "tools/list") →
       handle_mcp_post (Except.error e) callTool (Except.ok fields) =
         internalErrorResponse ((jLookup fields "id").getD JVal.null) e) := by
  constructor
  · intro sessions sid s freshId h msg e hne hlook herr
    have hc : containsSession sessions sid = true := contains_of_lookup sessions sid s hlook
    simp [handle_post, hne, hc, herr]
  · intro callTool e fields hmethod
    simp [handle_mcp_post, hmethod, isStrEq]

/-- Closed instance of `post_handler_failure_responses`. -/
theorem post_handler_failure_witness :
    (("sess" : String) ≠ "" ∧
     lookupSession [("sess", freshGetSession "sess")] "sess" =
       some (freshGetSession "sess") ∧
     handle_post [("sess", freshGetSession "sess")] (some "sess") "f"
       (Except.ok JVal.null) (some (fun _ => Except.error "boom")) =
       ([("sess", freshGetSession "sess")],
        { status := 500, body := JVal.obj [("error", JVal.str "boom")],
          headers := [] })) ∧
    (jLookup [("method", JVal.str "tools/list"), ("id", JVal.num 1)] "method" =
       some (JVal.str "tools/list") ∧
     handle_mcp_post (Except.error "boom") (fun _ _ => Except.ok JVal.null)
       (Except.ok [("method", JVal.str "tools/list"), ("id", JVal.num 1)]) =
       internalErrorResponse (JVal.num 1) "boom") :=
  ⟨⟨by decide, rfl,
    post_handler_failure_responses.1 [("sess", freshGetSession "sess")] "sess"
      (freshGetSession "sess") "f" (fun _ => Except.error "boom") JVal.null "boom"
      (by decide) rfl rfl⟩,
   ⟨rfl,
    post_handler_failure_responses.2 (fun _ _ => Except.ok JVal.null) "boom"
      [("method", JVal.str "tools/list"), ("id", JVal.num 1)] rfl⟩⟩

/-- C6: DELETE with a missing, empty or unknown `Mcp-Session-Id` returns 404
and leaves the registry unchanged; on a known session it performs exactly the
effect sequence enqueue-close-sentinel then remove-session, in that order,
yielding the registry without that session and an HTTP 200 termination
confirmation. -/
theorem delete_sentinel_then_remove (sessions : Sessions) :
    (handle_delete sessions none =
       (sessions,
        { status := 404, body := JVal.obj [("error", JVal.str "Session not found")],
          headers := [] }, [])) ∧
    (∀ sid : String, sid = "" ∨ containsSession sessions sid = false →
       handle_delete sessions (some sid) =
         (sessions,
          { status := 404, body := JVal.obj [("error", JVal.str "Session not found")],
            headers := [] }, [])) ∧
    (∀ sid : String, sid ≠ "" → containsSession sessions sid = true →
       handle_delete sessions (some sid) =
         (eraseSession sessions sid,
          { status := 200,
            body := JVal.obj [("status", JVal.str "session terminated")],
            headers := [] },
          [Effect.queuePut sid none, Effect.removeSession sid])) := by
  refine ⟨rfl, ?_, ?_⟩
  · intro sid hcond
    simp [handle_delete, hcond]
  · intro sid hne hc
    have hcond : ¬(sid = "" ∨ containsSession sessions sid = false) := by
      simp [hne, hc]
    simp [handle_delete, hcond, applyEffect, erase_enqueue]

/-- Closed instance of `delete_sentinel_then_remove`. -/
theorem delete_sentinel_then_remove_witness :
    ((("x" : String) = "" ∨ containsSession [] "x" = false) ∧
     handle_delete [] (some "x") =
       ([], { status := 404, body := JVal.obj [("error", JVal.str "Session not found")],
              headers := [] }, [])) ∧
    (("sess" : String) ≠ "" ∧
     containsSession [("sess", freshGetSession "sess")] "sess" = true ∧
     handle_delete [("sess", freshGetSession "sess")] (some "sess") =
       (eraseSession [("sess", freshGetSession "sess")] "sess",
        { status := 200, body := JVal.obj [("status", JVal.str "session terminated")],
          headers := [] },
        [Effect.queuePut "sess" none, Effect.removeSession "sess"])) :=
  ⟨⟨Or.inr rfl, (delete_sentinel_then_remove []).2.1 "x" (Or.inr rfl)⟩,
   ⟨by decide, rfl,
    (delete_sentinel_then_remove [("sess", freshGetSession "sess")]).2.2 "sess"
      (by decide) rfl⟩⟩

/-- C7: a POST carrying an unknown, non-empty `Mcp-Session-Id` auto-creates a
non-stateless session under exactly that id; on handler success it returns
HTTP 200 with the handler's response as body and the id echoed in the
`Mcp-Session-Id` header, the same response is enqueued on the new session's
queue, and the session survives the call. -/
theorem post_autocreates_unknown_session (sessions : Sessions)
    (sid freshId : String) (h : JVal → Except String JVal) (msg resp : JVal)
    (hne : sid ≠ "") (hfresh : containsSession sessions sid = false)
    (hok : h msg = Except.ok resp) :
    handle_post sessions (some sid) freshId (Except.ok msg) (some h) =
      (setSession sessions sid
         { id := sid, queue := [some resp], event_counter := 0,
           message_buffer := [], is_stateless := false },
       { status := 200, body := resp, headers := [("Mcp-Session-Id", sid)] }) ∧
    containsSession
      (handle_post sessions (some sid) freshId (Except.ok msg) (some h)).1 sid = true := by
  have heq : handle_post sessions (some sid) freshId (Except.ok msg) (some h) =
      (setSession sessions sid
         { id := sid, queue := [some resp], event_counter := 0,
           message_buffer := [], is_stateless := false },
       { status := 200, body := resp, headers := [("Mcp-Session-Id", sid)] }) := by
    simp [handle_post, hne, hfresh, hok, enqueue_set, freshPostSession]
  refine ⟨heq, ?_⟩
  rw [heq]
  exact contains_set_self sessions sid _

/-- Closed instance of `post_autocreates_unknown_session`. -/
theorem post_autocreates_unknown_session_witness :
    (("sess" : String) ≠ "" ∧ containsSession [] "sess" = false) ∧
    handle_post [] (some "sess") "f" (Except.ok JVal.null)
      (some (fun m => (Except.ok m : Except String JVal))) =
      (setSession [] "sess"
         { id := "sess", queue := [some JVal.null], event_counter := 0,
           message_buffer := [], is_stateless := false },
       { status := 200, body := JVal.null, headers := [("Mcp-Session-Id", "sess")] }) :=
  ⟨⟨by decide, rfl⟩,
   (post_autocreates_unknown_session [] "sess" "f"
      (fun m => (Except.ok m : Except String JVal)) JVal.null JVal.null
      (by decide) rfl rfl).1⟩

/-- C10: `send_message` on an unknown session id raises nothing and changes
nothing; on a known id it appends the payload to exactly that session's queue,
leaving its other fields and every other session untouched. -/
theorem send_message_enqueues_or_noop (sessions : Sessions) (sid : String) (m : JVal) :
    (containsSession sessions sid = false → send_message sessions sid m = sessions) ∧
    (∀ s : Session, lookupSession sessions sid = some s →
       lookupSession (send_message sessions sid m) sid =
         some { s with queue := s.queue ++ [some m] } ∧
       (∀ k : String, k ≠ sid →
          lookupSession (send_message sessions sid m) k = lookupSession sessions k)) := by
  constructor
  · intro hmiss
    simp [send_message, hmiss]
  · intro s hs
    have hc : containsSession sessions sid = true := contains_of_lookup sessions sid s hs
    constructor
    · simp [send_message, hc, lookup_enqueue_self sessions sid s (some m) hs]
    · intro k hk
      simp [send_message, hc, lookup_enqueue_other sessions sid k (some m) hk]

/-- Closed instance of `send_message_enqueues_or_noop`. -/
theorem send_message_enqueues_or_noop_witness :
    (containsSession [] "a" = false ∧ send_message [] "a" JVal.null = []) ∧
    (lookupSession [("sess", freshGetSession "sess")] "sess" =
       some (freshGetSession "sess") ∧
     lookupSession (send_message [("sess", freshGetSession "sess")] "sess" JVal.null)
       "sess" = some { freshGetSession "sess" with queue := [some JVal.null] } ∧
     lookupSession (send_message [("sess", freshGetSession "sess")] "sess" JVal.null)
       "other" = lookupSession [("sess", freshGetSession "sess")] "other") :=
  ⟨⟨rfl, (send_message_enqueues_or_noop [] "a" JVal.null).1 rfl⟩,
   ⟨rfl,
    ((send_message_enqueues_or_noop [("sess", freshGetSession "sess")] "sess"
        JVal.null).2 (freshGetSession "sess") rfl).1,
    ((send_message_enqueues_or_noop [("sess", freshGetSession "sess")] "sess"
        JVal.null).2 (freshGetSession "sess") rfl).2 "other" (by decide)⟩⟩

/-- Closed instance of `message_buffer_capped_at_100`. -/
theorem message_buffer_capped_at_100_witness :
    (([] : List (String × JVal)).length ≤ 100 ∧
     (bufferPush [] "1" JVal.null).length ≤ 100) ∧
    ((List.replicate 150 JVal.null).length = 150 ∧
     (sseLoop 0 [] ((List.replicate 150 JVal.null).map some)).2.1 =
       (enumPayloads 0 (List.replicate 150 JVal.null)).drop 50) :=
  ⟨⟨by decide, message_buffer_capped_at_100.1 [] "1" JVal.null (by decide)⟩,
   ⟨by simp,
    (message_buffer_capped_at_100.2 (List.replicate 150 JVal.null) (by simp)).1⟩⟩

end StreamableHTTP
